import Mathlib

/-!
Shallow embedding of the PDF extraction servers of the repository
legal-case-management-ai.

Two servers are embedded:

* `ApiServer` — src/docker/pdf-extract-kit/api_server.py: the model-based
  assembler `process_pdf` with its region extractors `extract_table`,
  `extract_formula`, `extract_image`.
* `LocalServer` — src/scripts/pdf_extract_server.py: the fallback extractor
  `extract_with_basic_tools`, the stub `extract_with_pdf_extract_kit`, and
  the strategy choice of the `/extract` route.

Python floats (bounding-box coordinates, confidences, page sizes) are
embedded as rationals; Python `int()` on a value is embedded as truncation
toward zero (`intTrunc`).  The opaque detection models (layout model, OCR,
table model, formula model, PyMuPDF rendering) are oracles supplied in an
environment record; a Python exception raised by an oracle or by a region
is an `Except.error`.
-/

/-- Bounding box (x0, y0, x1, y1), the four floats of the Python
`bbox` list in the order they are indexed by the source. -/
structure BBox where
  x0 : ℚ
  y0 : ℚ
  x1 : ℚ
  y1 : ℚ
deriving DecidableEq, Repr, Inhabited

/-- Python `int(q)` on a (finite) float value: truncation toward zero.
`Int.tdiv` is T-division, and `q.den` is positive, so this truncates. -/
def intTrunc (q : ℚ) : Int :=
  Int.tdiv q.num (q.den : Int)

/-- A layout element as produced into a page's `elements` list by either
server: the Python dict with keys `type`, `bbox`, `confidence` and the
optional key `content`. -/
structure Element where
  type_ : String
  bbox : BBox
  confidence : ℚ
  content : Option String
deriving DecidableEq, Repr, Inhabited

namespace ApiServer

/-- One detected element of a page as returned by the layout model:
dict with `type`, `bbox`, and possibly `confidence`
(read with `element.get('confidence', 1.0)`). -/
structure LayoutElement where
  type_ : String
  bbox : BBox
  confidence : Option ℚ
deriving DecidableEq, Repr, Inhabited

/-- One page of the layout model output: `width`, `height`, `elements`. -/
structure PageLayout where
  width : ℚ
  height : ℚ
  elements : List LayoutElement
deriving DecidableEq, Repr, Inhabited

/-- The layout model output: `layout_results['pages']`. -/
structure LayoutResult where
  pages : List PageLayout
deriving DecidableEq, Repr, Inhabited

/-- Result dict of `table_model.extract`; each key is read with
`.get(key, default)`, hence the `Option` fields. -/
structure TableModelResult where
  html : Option String
  markdown : Option String
  data : Option (List (List String))
  headers : Option (List String)
  confidence : Option ℚ
deriving DecidableEq, Repr, Inhabited

/-- Result dict of `formula_model.extract`. -/
structure FormulaModelResult where
  latex : Option String
  confidence : Option ℚ
deriving DecidableEq, Repr, Inhabited

/-- The opaque capability providers used by `process_pdf`.  Each model
call may raise (`Except.error`).  `ocr` is `none` when `ocr_model` is
`None`.  `imageRender` stands for the whole PyMuPDF clip-and-render block
of `extract_image`, producing the base64 PNG payload. -/
structure Env where
  layout : String → Except String LayoutResult
  ocr : Option (String → Nat → BBox → Except String String)
  tableModel : String → Nat → BBox → Except String TableModelResult
  formulaModel : String → Nat → BBox → Except String FormulaModelResult
  imageRender : String → Nat → BBox → Except String String

/-- The four extraction flags of the `/extract` request. -/
structure Flags where
  text : Bool
  tables : Bool
  images : Bool
  formulas : Bool
deriving DecidableEq, Repr, Inhabited

/-- A table entity (`extract_table` result dict); `pageNumber` is absent
(`none`) until `process_pdf` stamps it in. -/
structure Table where
  id : String
  bbox : BBox
  html : String
  markdown : String
  data : List (List String)
  headers : List String
  confidence : ℚ
  pageNumber : Option Nat
deriving DecidableEq, Repr, Inhabited

/-- A formula entity (`extract_formula` result dict). -/
structure Formula where
  id : String
  bbox : BBox
  type_ : String
  latex : String
  confidence : ℚ
  pageNumber : Option Nat
deriving DecidableEq, Repr, Inhabited

/-- An image entity (`extract_image` result dict). -/
structure Image where
  id : String
  bbox : BBox
  base64 : String
  type_ : String
  confidence : ℚ
  pageNumber : Option Nat
deriving DecidableEq, Repr, Inhabited

/-- An output page: `pageNumber`, `width`, `height`, `elements`. -/
structure Page where
  pageNumber : Nat
  width : ℚ
  height : ℚ
  elements : List Element
deriving DecidableEq, Repr, Inhabited

/-- The metadata dict computed at the end of `process_pdf`. -/
structure Metadata where
  totalPages : Nat
  totalTables : Nat
  totalImages : Nat
  totalFormulas : Nat
  textLength : Nat
deriving DecidableEq, Repr, Inhabited

/-- The full `result` dict returned by `process_pdf`. -/
structure Doc where
  text : String
  pages : List Page
  tables : List Table
  images : List Image
  formulas : List Formula
  metadata : Metadata
deriving DecidableEq, Repr, Inhabited

/-- The document-global accumulating parts of the `result` dict while
pages are being processed. -/
structure Build where
  text : String
  tables : List Table
  images : List Image
  formulas : List Formula
deriving DecidableEq, Repr, Inhabited

/-- The fresh accumulator at the start of `process_pdf`. -/
def emptyBuild : Build :=
  { text := "", tables := [], images := [], formulas := [] }

/-- The id scheme of the model-based server:
`f"{kind}_{page_num}_{int(bbox[0])}_{int(bbox[1])}"`. -/
def entityId (kind : String) (pageNum : Nat) (bb : BBox) : String :=
  kind ++ "_" ++ toString pageNum ++ "_" ++
    toString (intTrunc bb.x0) ++ "_" ++ toString (intTrunc bb.y0)

/-- The element types routed to text extraction:
`['text', 'title', 'header']`. -/
def textTypes : List String := ["text", "title", "header"]

/-- The element types routed to image extraction: `['image', 'figure']`. -/
def imageTypes : List String := ["image", "figure"]

/-- Embedding of `extract_table`: on a model failure it returns the
zero-confidence placeholder of the `except` branch. -/
def extract_table (env : Env) (path : String) (pageNum : Nat) (bb : BBox) :
    Table :=
  match env.tableModel path pageNum bb with
  | .ok r =>
      { id := entityId ("table") pageNum bb
        bbox := bb
        html := r.html.getD ""
        markdown := r.markdown.getD ""
        data := r.data.getD []
        headers := r.headers.getD []
        confidence := r.confidence.getD (9/10)
        pageNumber := none }
  | .error _ =>
      { id := entityId ("table") pageNum bb
        bbox := bb
        html := ""
        markdown := ""
        data := []
        headers := []
        confidence := 0
        pageNumber := none }

/-- Embedding of `extract_formula`: `'block' if bbox[3] - bbox[1] > 50
else 'inline'` on success; the `except` branch returns type `'unknown'`
with empty latex and confidence 0. -/
def extract_formula (env : Env) (path : String) (pageNum : Nat) (bb : BBox) :
    Formula :=
  match env.formulaModel path pageNum bb with
  | .ok r =>
      { id := entityId ("formula") pageNum bb
        bbox := bb
        type_ := if bb.y1 - bb.y0 > 50 then "block" else "inline"
        latex := r.latex.getD ""
        confidence := r.confidence.getD (9/10)
        pageNumber := none }
  | .error _ =>
      { id := entityId ("formula") pageNum bb
        bbox := bb
        type_ := "unknown"
        latex := ""
        confidence := 0
        pageNumber := none }

/-- Embedding of `extract_image`: the PyMuPDF render block is the
`imageRender` oracle; the `except` branch returns an empty payload with
type `'unknown'` and confidence 0. -/
def extract_image (env : Env) (path : String) (pageNum : Nat) (bb : BBox) :
    Image :=
  match env.imageRender path pageNum bb with
  | .ok b64 =>
      { id := entityId ("image") pageNum bb
        bbox := bb
        base64 := b64
        type_ := "figure"
        confidence := 95/100
        pageNumber := none }
  | .error _ =>
      { id := entityId ("image") pageNum bb
        bbox := bb
        base64 := ""
        type_ := "unknown"
        confidence := 0
        pageNumber := none }

/-- The text `if` block of the element loop: when the flag is on, the
type is a text type and `ocr_model` is present, the OCR text is appended
to the running document text with a trailing space and becomes the
element content; an OCR exception propagates (no `try` around it). -/
def textStep (env : Env) (path : String) (flags : Flags) (pageNum : Nat)
    (st : Build) (el : LayoutElement) :
    Except String (Build × Option String) :=
  if flags.text = true ∧ el.type_ ∈ textTypes then
    match env.ocr with
    | some ocr =>
        match ocr path pageNum el.bbox with
        | .error e => .error e
        | .ok t => .ok ({ st with text := st.text ++ t ++ " " }, some t)
    | none => .ok (st, none)
  else .ok (st, none)

/-- The table `if` block: append the stamped table and set the summary
content. -/
def tableStep (env : Env) (path : String) (flags : Flags) (pageNum : Nat)
    (el : LayoutElement) (p : Build × Option String) :
    Build × Option String :=
  if flags.tables = true ∧ el.type_ = "table" then
    let td := { extract_table env path pageNum el.bbox with
                  pageNumber := some pageNum }
    ({ p.1 with tables := p.1.tables ++ [td] },
     some ("Table with " ++ toString td.data.length ++ " rows"))
  else p

/-- The formula `if` block: append the stamped formula and set the latex
content. -/
def formulaStep (env : Env) (path : String) (flags : Flags) (pageNum : Nat)
    (el : LayoutElement) (p : Build × Option String) :
    Build × Option String :=
  if flags.formulas = true ∧ el.type_ = "formula" then
    let fd := { extract_formula env path pageNum el.bbox with
                  pageNumber := some pageNum }
    ({ p.1 with formulas := p.1.formulas ++ [fd] }, some fd.latex)
  else p

/-- The image `if` block: append the stamped image and set the fixed
label content. -/
def imageStep (env : Env) (path : String) (flags : Flags) (pageNum : Nat)
    (el : LayoutElement) (p : Build × Option String) :
    Build × Option String :=
  if flags.images = true ∧ el.type_ ∈ imageTypes then
    let im := { extract_image env path pageNum el.bbox with
                  pageNumber := some pageNum }
    ({ p.1 with images := p.1.images ++ [im] }, some ("Image"))
  else p

/-- Embedding of the per-element body of the loop in `process_pdf`.
Returns the updated global accumulator and the `content` value set on
`elem_data` (`none` when no branch set it).  The four `if` blocks run in
source order; only the text block can raise (an OCR failure is not
caught anywhere in `process_pdf`). -/
def processElement (env : Env) (path : String) (flags : Flags)
    (pageNum : Nat) (st : Build) (el : LayoutElement) :
    Except String (Build × Option String) :=
  match textStep env path flags pageNum st el with
  | .error e => .error e
  | .ok p1 =>
      .ok (imageStep env path flags pageNum el
            (formulaStep env path flags pageNum el
              (tableStep env path flags pageNum el p1)))

/-- Embedding of the inner element loop of `process_pdf` over one page:
each element contributes an `Element` record whose `type`, `bbox` and
`confidence` (default 1.0) come from the detection, and whose `content`
is whatever `processElement` set. -/
def processElems (env : Env) (path : String) (flags : Flags)
    (pageNum : Nat) (st : Build) :
    List LayoutElement → Except String (Build × List Element)
  | [] => .ok (st, [])
  | el :: rest =>
      match processElement env path flags pageNum st el with
      | .error e => .error e
      | .ok (st1, c) =>
          match processElems env path flags pageNum st1 rest with
          | .error e => .error e
          | .ok (st2, es) =>
              .ok (st2,
                { type_ := el.type_, bbox := el.bbox,
                  confidence := el.confidence.getD 1, content := c } :: es)

/-- Embedding of the page loop of `process_pdf`; `pageNum` is the 1-based
`enumerate(layout_results['pages'], 1)` counter. -/
def processPages (env : Env) (path : String) (flags : Flags)
    (st : Build) (pageNum : Nat) :
    List PageLayout → Except String (Build × List Page)
  | [] => .ok (st, [])
  | pl :: rest =>
      match processElems env path flags pageNum st pl.elements with
      | .error e => .error e
      | .ok (st1, es) =>
          match processPages env path flags st1 (pageNum + 1) rest with
          | .error e => .error e
          | .ok (st2, ps) =>
              .ok (st2,
                { pageNumber := pageNum, width := pl.width,
                  height := pl.height, elements := es } :: ps)

/-- Embedding of `process_pdf`: layout detection, the page loop, then the
metadata computed by counting the assembled collections.  Any uncaught
exception (layout failure, OCR failure) propagates: the `except` clause
of `process_pdf` re-raises. -/
def process_pdf (env : Env) (path : String) (flags : Flags) :
    Except String Doc :=
  match env.layout path with
  | .error e => .error e
  | .ok lr =>
      match processPages env path flags emptyBuild 1 lr.pages with
      | .error e => .error e
      | .ok (st, ps) =>
          .ok { text := st.text
                pages := ps
                tables := st.tables
                images := st.images
                formulas := st.formulas
                metadata :=
                  { totalPages := ps.length
                    totalTables := st.tables.length
                    totalImages := st.images.length
                    totalFormulas := st.formulas.length
                    textLength := st.text.length } }

end ApiServer

namespace LocalServer

open ApiServer (Flags)

/-- A text line inside a PyMuPDF text block: the list of its span texts. -/
structure Line where
  spans : List String
deriving DecidableEq, Repr, Inhabited

/-- A PyMuPDF block from `page.get_text("dict")`; `lines` is `none` when
the block has no `'lines'` key (non-text block). -/
structure Block where
  bbox : BBox
  lines : Option (List Line)
deriving DecidableEq, Repr, Inhabited

/-- An embedded raster image of a page, after `fitz.Pixmap(doc, xref)`:
component count `n`, alpha channel count `alpha`, pixel size, and the
base64 of its PNG bytes. -/
structure FitzImage where
  n : Int
  alpha : Int
  width : Nat
  height : Nat
  pngBase64 : String
deriving DecidableEq, Repr, Inhabited

/-- A table found by `page.find_tables()`: its bbox, the outcome of
`table.extract()` together with the HTML rendering step (the inner
`try` covers both, so one `Except` models the pair), and the HTML string
produced when that step succeeds. -/
structure FitzTable where
  bbox : BBox
  ext : Except String (List (List String))
  html : String
deriving Repr, Inhabited

/-- One successfully loaded PyMuPDF page: size, full page text from
`page.get_text()`, text blocks, embedded images, detected tables. -/
structure FitzPage where
  width : ℚ
  height : ℚ
  text : String
  blocks : List Block
  images : List FitzImage
  tables : List FitzTable
deriving Repr, Inhabited

/-- A document as `fitz.open` exposes it; a page that raises while being
loaded or read is an `Except.error` entry. -/
structure PdfDoc where
  pages : List (Except String FitzPage)
deriving Repr, Inhabited

/-- An image entity of the fallback result (`result['images']` entry). -/
structure BImage where
  id : String
  pageNumber : Nat
  bbox : BBox
  base64 : String
  type_ : String
  confidence : ℚ
  width : Nat
  height : Nat
deriving DecidableEq, Repr, Inhabited

/-- A table entity of the fallback result (`result['tables']` entry). -/
structure BTable where
  id : String
  pageNumber : Nat
  bbox : BBox
  html : String
  markdown : String
  data : List (List String)
  headers : List String
  confidence : ℚ
  rows : Nat
  columns : Nat
deriving DecidableEq, Repr, Inhabited

/-- The metadata dict of the fallback result.  On success the count keys
and `extractionMethod` are present; on failure only `error` is. -/
structure BMetadata where
  totalPages : Option Nat := none
  totalTables : Option Nat := none
  totalImages : Option Nat := none
  totalFormulas : Option Nat := none
  textLength : Option Nat := none
  extractionMethod : Option String := none
  error : Option String := none
deriving DecidableEq, Repr, Inhabited

/-- The fallback result dict.  `formulas` is typed like the model-based
formula list; the fallback never appends to it. -/
structure BasicResult where
  text : String
  pages : List ApiServer.Page
  tables : List BTable
  images : List BImage
  formulas : List ApiServer.Formula
  metadata : BMetadata
deriving Repr, Inhabited

/-- Text elements of one block: one element per line whose space-joined,
stripped span text is non-empty; the bbox is the block bbox, the content
the stripped line text, the confidence 0.9.  Python `str.strip` is
embedded as `String.trim`. -/
def blockElements (b : Block) : List Element :=
  match b.lines with
  | none => []
  | some ls =>
      ls.filterMap (fun l =>
        let lt := (String.intercalate (" ") l.spans).trim
        if lt ≠ "" then
          some { type_ := "text", bbox := b.bbox,
                 confidence := 9/10, content := some lt }
        else none)

/-- Text elements of all blocks of a page, in block order then line
order. -/
def blocksElements (bs : List Block) : List Element :=
  (bs.map blockElements).flatten

/-- Embedding of the image loop of one page: `pageIdx` is the 0-based
`page_num`, `idx` the `enumerate` counter over `page.get_images()` (it
advances over skipped CMYK images too).  Returns the `result['images']`
entries and the image layout elements, in loop order. -/
def imagesFrom (pageIdx : Nat) (idx : Nat) :
    List FitzImage → List BImage × List Element
  | [] => ([], [])
  | im :: rest =>
      let tail := imagesFrom pageIdx (idx + 1) rest
      if im.n - im.alpha < 4 then
        ({ id := "img_" ++ toString pageIdx ++ "_" ++ toString idx
           pageNumber := pageIdx + 1
           bbox := { x0 := 0, y0 := 0, x1 := (im.width : ℚ), y1 := (im.height : ℚ) }
           base64 := im.pngBase64
           type_ := "photo"
           confidence := 8/10
           width := im.width
           height := im.height } :: tail.1,
         { type_ := "image",
           bbox := { x0 := 0, y0 := 0, x1 := (im.width : ℚ), y1 := (im.height : ℚ) },
           confidence := 8/10, content := some ("Image") } :: tail.2)
      else tail

/-- Embedding of the table loop of one page: a table whose extraction
step raises is skipped entirely (the inner `except` only logs); headers
are `table_data[0]` when non-empty, data is the remaining rows. -/
def tablesFrom (pageIdx : Nat) (idx : Nat) :
    List FitzTable → List BTable × List Element
  | [] => ([], [])
  | t :: rest =>
      let tail := tablesFrom pageIdx (idx + 1) rest
      match t.ext with
      | .error _ => tail
      | .ok td =>
          let headers := match td with | [] => ([] : List String) | h :: _ => h
          let data := match td with | [] => ([] : List (List String)) | _ :: r => r
          ({ id := "table_" ++ toString pageIdx ++ "_" ++ toString idx
             pageNumber := pageIdx + 1
             bbox := t.bbox
             html := t.html
             markdown := ""
             data := data
             headers := headers
             confidence := 8/10
             rows := data.length
             columns := headers.length } :: tail.1,
           { type_ := "table", bbox := t.bbox, confidence := 8/10,
             content := some ("Table with " ++ toString data.length ++ " rows") } :: tail.2)

/-- Embedding of the page loop of `extract_with_basic_tools`: `pageIdx`
is the 0-based `page_num`.  Yields the accumulated text (each page's text
followed by a newline), the image and table collections, and the output
pages; a failing page propagates its error (the outer `except` of the
Python function catches it). -/
def basicPages (pageIdx : Nat) :
    List (Except String FitzPage) →
    Except String (String × List BImage × List BTable × List ApiServer.Page)
  | [] => .ok ("", [], [], [])
  | .error e :: _ => .error e
  | .ok p :: rest =>
          match basicPages (pageIdx + 1) rest with
          | .error e => .error e
          | .ok (txt, imgs, tbls, pgs) =>
              .ok (p.text ++ "\n" ++ txt,
                   (imagesFrom pageIdx 0 p.images).1 ++ imgs,
                   (tablesFrom pageIdx 0 p.tables).1 ++ tbls,
                   { pageNumber := pageIdx + 1
                     width := p.width
                     height := p.height
                     elements :=
                       blocksElements p.blocks ++
                       (imagesFrom pageIdx 0 p.images).2 ++
                       (tablesFrom pageIdx 0 p.tables).2 } :: pgs)

/-- The minimal result fabricated by the outer `except` branch of
`extract_with_basic_tools`. -/
def failResult (e : String) : BasicResult :=
  { text := "Extraction failed"
    pages := []
    tables := []
    images := []
    formulas := []
    metadata := { error := some e } }

/-- Embedding of `extract_with_basic_tools`.  The argument is the
outcome of `fitz.open`: an unreadable document is an `Except.error`.
Every failure path (open failure or any page failure) lands in the one
outer `except`, producing `failResult`; on success the metadata counts
the collections and records the extraction method. -/
def extract_with_basic_tools (doc? : Except String PdfDoc) : BasicResult :=
  match doc? with
  | .error e => failResult e
  | .ok doc =>
      match basicPages 0 doc.pages with
      | .error e => failResult e
      | .ok (txt, imgs, tbls, pgs) =>
          { text := txt
            pages := pgs
            tables := tbls
            images := imgs
            formulas := []
            metadata :=
              { totalPages := some pgs.length
                totalTables := some tbls.length
                totalImages := some imgs.length
                totalFormulas := some 0
                textLength := some txt.length
                extractionMethod := some ("PyMuPDF-basic") } }

/-- Embedding of `extract_with_pdf_extract_kit`: the body logs and then
returns `extract_with_basic_tools(pdf_path)`. -/
def extract_with_pdf_extract_kit (doc? : Except String PdfDoc) : BasicResult :=
  extract_with_basic_tools doc?

/-- Embedding of the strategy choice inside the `/extract` route of the
local server: the parsed extraction flags are never passed on, and the
branch on `models_loaded` selects between the stub and the fallback. -/
def extract_document (modelsLoaded : Bool) (flags : Flags)
    (doc? : Except String PdfDoc) : BasicResult :=
  if modelsLoaded then extract_with_pdf_extract_kit doc?
  else extract_with_basic_tools doc?

end LocalServer

namespace ApiServer

/-- The flag-independent part of an output element: type, bbox,
confidence. -/
def stripElem (e : Element) : String × BBox × ℚ :=
  (e.type_, e.bbox, e.confidence)

/-- The record a detection contributes to its page, per the source:
type and bbox verbatim, confidence defaulting to 1.0. -/
def detStrip (el : LayoutElement) : String × BBox × ℚ :=
  (el.type_, el.bbox, el.confidence.getD 1)

/-- The flag-independent part of an output page. -/
def pageStrip (p : Page) : Nat × ℚ × ℚ × List (String × BBox × ℚ) :=
  (p.pageNumber, p.width, p.height, p.elements.map stripElem)

/-- What the page loop is expected to record, page by page, starting at
page number `n`. -/
def layoutPageStrip : Nat → List PageLayout →
    List (Nat × ℚ × ℚ × List (String × BBox × ℚ))
  | _, [] => []
  | n, pl :: rest =>
      (n, pl.width, pl.height, pl.elements.map detStrip) ::
        layoutPageStrip (n + 1) rest

/-- A stamped table whose id follows the deterministic scheme. -/
def tableOk (t : Table) : Prop :=
  ∃ n, t.pageNumber = some n ∧ t.id = entityId ("table") n t.bbox

/-- A stamped formula whose id follows the deterministic scheme. -/
def formulaOk (f : Formula) : Prop :=
  ∃ n, f.pageNumber = some n ∧ f.id = entityId ("formula") n f.bbox

/-- A stamped image whose id follows the deterministic scheme. -/
def imageOk (i : Image) : Prop :=
  ∃ n, i.pageNumber = some n ∧ i.id = entityId ("image") n i.bbox

/-- All three collections of an accumulator follow the id scheme. -/
def collectionsOk (b : Build) : Prop :=
  (∀ t ∈ b.tables, tableOk t) ∧ (∀ f ∈ b.formulas, formulaOk f) ∧
  (∀ i ∈ b.images, imageOk i)

end ApiServer

/-- A fixed document path used by the concrete scenarios. -/
def scenarioPath : String := "scenario.pdf"

/-- All four extraction flags enabled. -/
def allFlags : ApiServer.Flags :=
  { text := true, tables := true, images := true, formulas := true }

/-- Flags with image extraction disabled. -/
def noImagesFlags : ApiServer.Flags :=
  { text := true, tables := true, images := false, formulas := true }

/-- An OCR oracle that always reads the text Hello. -/
def ocrHello : String → Nat → BBox → Except String String :=
  fun _ _ _ => .ok ("Hello")

/-- An OCR oracle that always raises. -/
def ocrCrash : String → Nat → BBox → Except String String :=
  fun _ _ _ => .error ("ocr crash")

/-- The table model result used by the concrete scenarios. -/
def scenTableRes : ApiServer.TableModelResult :=
  { html := some ("<table></table>")
    markdown := some ("")
    data := some ([["1", "2"]])
    headers := some (["A", "B"])
    confidence := some (95/100) }

/-- A table model oracle returning the scenario table. -/
def tableModelScen :
    String → Nat → BBox → Except String ApiServer.TableModelResult :=
  fun _ _ _ => .ok scenTableRes

/-- The formula model result used by the formula scenario. -/
def scenFormulaRes : ApiServer.FormulaModelResult :=
  { latex := some ("x^2"), confidence := some (9/10) }

/-- A formula model oracle returning the scenario formula. -/
def formulaModelScen :
    String → Nat → BBox → Except String ApiServer.FormulaModelResult :=
  fun _ _ _ => .ok scenFormulaRes

/-- A formula model oracle that always raises. -/
def formulaModelDown :
    String → Nat → BBox → Except String ApiServer.FormulaModelResult :=
  fun _ _ _ => .error ("formula model down")

/-- A table model oracle that always raises. -/
def tableModelDown :
    String → Nat → BBox → Except String ApiServer.TableModelResult :=
  fun _ _ _ => .error ("table model down")

/-- An image render oracle that always raises. -/
def imageRenderDown : String → Nat → BBox → Except String String :=
  fun _ _ _ => .error ("image render down")

/-- An image render oracle returning a fixed payload. -/
def imageRenderOk : String → Nat → BBox → Except String String :=
  fun _ _ _ => .ok ("iVBORw0KGgo=")

/-- The Hello text element of the scenario (page 1). -/
def elHello : ApiServer.LayoutElement :=
  { type_ := "text"
    bbox := { x0 := 0, y0 := 0, x1 := 100, y1 := 20 }
    confidence := some (9/10) }

/-- The table element of the scenario (page 2). -/
def elTable : ApiServer.LayoutElement :=
  { type_ := "table"
    bbox := { x0 := 0, y0 := 30, x1 := 200, y1 := 100 }
    confidence := some (9/10) }

/-- A detected image element; the detector omits its confidence, so
assembly defaults it to 1.0. -/
def elImage : ApiServer.LayoutElement :=
  { type_ := "image"
    bbox := { x0 := 10, y0 := 10, x1 := 60, y1 := 60 }
    confidence := none }

/-- A detected formula element. -/
def elFormula : ApiServer.LayoutElement :=
  { type_ := "formula"
    bbox := { x0 := 5, y0 := 10, x1 := 50, y1 := 200 }
    confidence := some (8/10) }

/-- The layout of the two-page concrete scenario of the spec: Hello on
page 1, one table on page 2. -/
def scenLayout : ApiServer.LayoutResult :=
  { pages :=
      [{ width := 612, height := 792, elements := [elHello] },
       { width := 612, height := 792, elements := [elTable] }] }

/-- The environment of the two-page scenario. -/
def envScenario : ApiServer.Env :=
  { layout := fun _ => .ok scenLayout
    ocr := some ocrHello
    tableModel := tableModelScen
    formulaModel := formulaModelDown
    imageRender := imageRenderOk }

/-- The document the model-based assembler produces on the scenario. -/
def scenarioDoc : ApiServer.Doc :=
  ((ApiServer.process_pdf envScenario scenarioPath allFlags).toOption).getD
    default

/-- An environment whose layout detection raises (corrupt input). -/
def envCorrupt : ApiServer.Env :=
  { layout := fun _ => .error ("cannot open file")
    ocr := none
    tableModel := tableModelDown
    formulaModel := formulaModelDown
    imageRender := imageRenderDown }

/-- An environment with a one-text-element page and a crashing OCR. -/
def envOcrFail : ApiServer.Env :=
  { layout := fun _ =>
      .ok { pages := [{ width := 612, height := 792, elements := [elHello] }] }
    ocr := some ocrCrash
    tableModel := tableModelScen
    formulaModel := formulaModelDown
    imageRender := imageRenderOk }

/-- An environment detecting one formula whose model raises. -/
def envFormulaFail : ApiServer.Env :=
  { layout := fun _ =>
      .ok { pages := [{ width := 612, height := 792,
                        elements := [elFormula] }] }
    ocr := some ocrHello
    tableModel := tableModelScen
    formulaModel := formulaModelDown
    imageRender := imageRenderOk }

/-- An environment with a working formula model. -/
def envFormulaOk : ApiServer.Env :=
  { layout := fun _ =>
      .ok { pages := [{ width := 612, height := 792,
                        elements := [elFormula] }] }
    ocr := some ocrHello
    tableModel := tableModelScen
    formulaModel := formulaModelScen
    imageRender := imageRenderOk }

/-- An environment where every oracle fails. -/
def envAllFail : ApiServer.Env :=
  { layout := fun _ => .error ("layout down")
    ocr := some ocrCrash
    tableModel := tableModelDown
    formulaModel := formulaModelDown
    imageRender := imageRenderDown }

/-- An environment detecting one image and one text element. -/
def envImg : ApiServer.Env :=
  { layout := fun _ =>
      .ok { pages := [{ width := 100, height := 100,
                        elements := [elImage, elHello] }] }
    ocr := some ocrHello
    tableModel := tableModelScen
    formulaModel := formulaModelScen
    imageRender := imageRenderOk }

/-- The document produced on `envImg` with images disabled. -/
def noImagesDoc : ApiServer.Doc :=
  ((ApiServer.process_pdf envImg scenarioPath noImagesFlags).toOption).getD
    default

/-- A tall formula bounding box (height 100, above the 50 threshold). -/
def bbTall : BBox := { x0 := 0, y0 := 0, x1 := 10, y1 := 100 }

/-- A bounding box with a negative, non-integral x0 = -1.5. -/
def bbNeg : BBox := { x0 := -(3/2), y0 := 5, x1 := 0, y1 := 0 }

/-- One PyMuPDF page holding a single detected table at x0 = 10.5,
y0 = 20.5 whose extraction yields a header row and one data row. -/
def pageTbl : LocalServer.FitzPage :=
  { width := 612
    height := 792
    text := "T"
    blocks := []
    images := []
    tables := [{ bbox := { x0 := 21/2, y0 := 41/2, x1 := 100, y1 := 200 }
                 ext := .ok ([["A", "B"], ["1", "2"]])
                 html := "<table></table>" }] }

/-- A readable one-page document with the table page. -/
def docTbl : LocalServer.PdfDoc := { pages := [.ok pageTbl] }

/-- The success tuple of the fallback page loop on `docTbl`. -/
def basicTblTuple :
    String × List LocalServer.BImage × List LocalServer.BTable ×
      List ApiServer.Page :=
  ((LocalServer.basicPages 0 docTbl.pages).toOption).getD default

/-- A one-page document with a single embedded RGB image. -/
def docOneImage : LocalServer.PdfDoc :=
  { pages := [.ok { width := 100, height := 100, text := ""
                    blocks := []
                    images := [{ n := 3, alpha := 0, width := 10,
                                 height := 10,
                                 pngBase64 := "iVBORw0KGgo=" }]
                    tables := [] }] }

/-- A two-page document whose second page raises while being read. -/
def docPageFail : LocalServer.PdfDoc :=
  { pages := [.ok pageTbl, .error ("page 2 crashed")] }

namespace ApiServer

/-- Each element record produced by the element loop strips to the
detection it came from. -/
theorem processElems_strip (env : Env) (path : String) (flags : Flags)
    (pageNum : Nat) :
    ∀ (els : List LayoutElement) (st st2 : Build) (es : List Element),
      processElems env path flags pageNum st els = .ok (st2, es) →
      es.map stripElem = els.map detStrip := by
  intro els
  induction els with
  | nil =>
      intro st st2 es h
      simp only [processElems, Except.ok.injEq, Prod.mk.injEq] at h
      rw [← h.2]
      rfl
  | cons el rest ih =>
      intro st st2 es h
      rw [processElems] at h
      split at h
      · exact absurd h (by simp)
      · rename_i st1 c _
        split at h
        · exact absurd h (by simp)
        · rename_i stx esx hrec
          simp only [Except.ok.injEq, Prod.mk.injEq] at h
          rw [← h.2]
          simp only [List.map_cons, List.cons.injEq]
          exact ⟨rfl, ih _ _ _ hrec⟩

/-- Each page record produced by the page loop strips to its layout
page, numbered consecutively from the starting counter. -/
theorem processPages_strip (env : Env) (path : String) (flags : Flags) :
    ∀ (pls : List PageLayout) (st st2 : Build) (n : Nat) (ps : List Page),
      processPages env path flags st n pls = .ok (st2, ps) →
      ps.map pageStrip = layoutPageStrip n pls := by
  intro pls
  induction pls with
  | nil =>
      intro st st2 n ps h
      simp only [processPages, Except.ok.injEq, Prod.mk.injEq] at h
      rw [← h.2]
      rfl
  | cons pl rest ih =>
      intro st st2 n ps h
      rw [processPages] at h
      split at h
      · exact absurd h (by simp)
      · rename_i st1 es hpe
        split at h
        · exact absurd h (by simp)
        · rename_i stx psx hrec
          simp only [Except.ok.injEq, Prod.mk.injEq] at h
          rw [← h.2]
          simp only [List.map_cons, layoutPageStrip, List.cons.injEq]
          refine ⟨?_, ih _ _ _ _ hrec⟩
          simp only [pageStrip, Prod.mk.injEq]
          exact ⟨trivial, trivial, trivial,
            processElems_strip env path flags n _ _ _ es hpe⟩

end ApiServer

namespace ApiServer

/-- Image and figure types match none of the other dispatch guards. -/
theorem imageTypes_disjoint (s : String) (h : s ∈ imageTypes) :
    s ∉ textTypes ∧ s ≠ "table" ∧ s ≠ "formula" := by
  simp only [imageTypes, List.mem_cons, List.not_mem_nil, or_false] at h
  rcases h with h | h <;> subst h <;>
    exact ⟨by decide, by decide, by decide⟩

/-- Text types match none of the other dispatch guards. -/
theorem textTypes_disjoint (s : String) (h : s ∈ textTypes) :
    s ≠ "table" ∧ s ≠ "formula" ∧ s ∉ imageTypes := by
  simp only [textTypes, List.mem_cons, List.not_mem_nil, or_false] at h
  rcases h with h | h | h <;> subst h <;>
    exact ⟨by decide, by decide, by decide⟩

/-- A non-text-typed element passes through the text block untouched. -/
theorem textStep_not_text (env : Env) (path : String) (flags : Flags)
    (pageNum : Nat) (st : Build) (el : LayoutElement)
    (h : el.type_ ∉ textTypes) :
    textStep env path flags pageNum st el = .ok (st, none) := by
  unfold textStep
  rw [if_neg (fun hc => h hc.2)]

/-- A non-table-typed element passes through the table block untouched. -/
theorem tableStep_not_table (env : Env) (path : String) (flags : Flags)
    (pageNum : Nat) (el : LayoutElement) (p : Build × Option String)
    (h : el.type_ ≠ "table") :
    tableStep env path flags pageNum el p = p := by
  unfold tableStep
  rw [if_neg (fun hc => h hc.2)]

/-- A non-formula-typed element passes through the formula block
untouched. -/
theorem formulaStep_not_formula (env : Env) (path : String) (flags : Flags)
    (pageNum : Nat) (el : LayoutElement) (p : Build × Option String)
    (h : el.type_ ≠ "formula") :
    formulaStep env path flags pageNum el p = p := by
  unfold formulaStep
  rw [if_neg (fun hc => h hc.2)]

/-- A non-image-typed element passes through the image block untouched. -/
theorem imageStep_not_image (env : Env) (path : String) (flags : Flags)
    (pageNum : Nat) (el : LayoutElement) (p : Build × Option String)
    (h : el.type_ ∉ imageTypes) :
    imageStep env path flags pageNum el p = p := by
  unfold imageStep
  rw [if_neg (fun hc => h hc.2)]

/-- With the image flag off the image block is a no-op. -/
theorem imageStep_flag_off (env : Env) (path : String) (flags : Flags)
    (pageNum : Nat) (el : LayoutElement) (p : Build × Option String)
    (h : flags.images = false) :
    imageStep env path flags pageNum el p = p := by
  unfold imageStep
  rw [if_neg (fun hc => by rw [h] at hc; exact absurd hc.1 (by decide))]

/-- The table block never touches text, formulas or images. -/
theorem tableStep_frame (env : Env) (path : String) (flags : Flags)
    (pageNum : Nat) (el : LayoutElement) (p : Build × Option String) :
    ((tableStep env path flags pageNum el p).1).images = p.1.images ∧
    ((tableStep env path flags pageNum el p).1).formulas = p.1.formulas ∧
    ((tableStep env path flags pageNum el p).1).text = p.1.text := by
  unfold tableStep
  split <;> exact ⟨rfl, rfl, rfl⟩

/-- The formula block never touches text, tables or images. -/
theorem formulaStep_frame (env : Env) (path : String) (flags : Flags)
    (pageNum : Nat) (el : LayoutElement) (p : Build × Option String) :
    ((formulaStep env path flags pageNum el p).1).images = p.1.images ∧
    ((formulaStep env path flags pageNum el p).1).tables = p.1.tables ∧
    ((formulaStep env path flags pageNum el p).1).text = p.1.text := by
  unfold formulaStep
  split <;> exact ⟨rfl, rfl, rfl⟩

/-- A successful text block leaves tables, formulas and images alone. -/
theorem textStep_ok_frame (env : Env) (path : String) (flags : Flags)
    (pageNum : Nat) (st : Build) (el : LayoutElement) (st1 : Build)
    (c : Option String)
    (h : textStep env path flags pageNum st el = .ok (st1, c)) :
    st1.images = st.images ∧ st1.tables = st.tables ∧
    st1.formulas = st.formulas := by
  unfold textStep at h
  split at h
  · split at h
    · split at h
      · exact absurd h (by simp)
      · simp only [Except.ok.injEq, Prod.mk.injEq] at h
        rw [← h.1]
        exact ⟨rfl, rfl, rfl⟩
    · simp only [Except.ok.injEq, Prod.mk.injEq] at h
      rw [← h.1]
      exact ⟨rfl, rfl, rfl⟩
  · simp only [Except.ok.injEq, Prod.mk.injEq] at h
    rw [← h.1]
    exact ⟨rfl, rfl, rfl⟩

/-- With the image flag off, a successful element step leaves the image
collection alone. -/
theorem processElement_images_frame (env : Env) (path : String)
    (flags : Flags) (pageNum : Nat) (st : Build) (el : LayoutElement)
    (st1 : Build) (c : Option String)
    (himg : flags.images = false)
    (h : processElement env path flags pageNum st el = .ok (st1, c)) :
    st1.images = st.images := by
  unfold processElement at h
  split at h
  · exact absurd h (by simp)
  · rename_i p1 heq
    rw [imageStep_flag_off env path flags pageNum el _ himg] at h
    simp only [Except.ok.injEq] at h
    have h1 : st1 =
        (formulaStep env path flags pageNum el
          (tableStep env path flags pageNum el p1)).1 :=
      (congrArg Prod.fst h).symm
    rw [h1]
    rw [(formulaStep_frame env path flags pageNum el _).1,
        (tableStep_frame env path flags pageNum el p1).1]
    exact (textStep_ok_frame env path flags pageNum st el p1.1 p1.2
      (by rw [heq])).1

/-- With the image flag off, an image- or figure-typed element gets no
content from any block. -/
theorem processElement_image_content (env : Env) (path : String)
    (flags : Flags) (pageNum : Nat) (st : Build) (el : LayoutElement)
    (st1 : Build) (c : Option String)
    (himg : flags.images = false) (htype : el.type_ ∈ imageTypes)
    (h : processElement env path flags pageNum st el = .ok (st1, c)) :
    c = none := by
  obtain ⟨hnt, hntab, hnform⟩ := imageTypes_disjoint el.type_ htype
  unfold processElement at h
  rw [textStep_not_text env path flags pageNum st el hnt] at h
  dsimp only at h
  rw [tableStep_not_table env path flags pageNum el _ hntab,
      formulaStep_not_formula env path flags pageNum el _ hnform,
      imageStep_flag_off env path flags pageNum el _ himg] at h
  simp only [Except.ok.injEq, Prod.mk.injEq] at h
  exact h.2.symm

/-- A text-typed element whose OCR succeeds: the text is appended with a
trailing space and becomes the content, nothing else changes. -/
theorem processElement_text (env : Env) (path : String) (flags : Flags)
    (pageNum : Nat) (st : Build) (el : LayoutElement)
    (f : String → Nat → BBox → Except String String) (t : String)
    (hf : flags.text = true) (hm : el.type_ ∈ textTypes)
    (hocr : env.ocr = some f) (hres : f path pageNum el.bbox = .ok t) :
    processElement env path flags pageNum st el =
      .ok ({ st with text := st.text ++ t ++ " " }, some t) := by
  obtain ⟨hntab, hnform, hnimg⟩ := textTypes_disjoint el.type_ hm
  unfold processElement textStep
  rw [if_pos ⟨hf, hm⟩, hocr]
  dsimp only
  rw [hres]
  dsimp only
  rw [tableStep_not_table env path flags pageNum el _ hntab,
      formulaStep_not_formula env path flags pageNum el _ hnform,
      imageStep_not_image env path flags pageNum el _ hnimg]

/-- A text-typed element whose OCR raises aborts the element step: the
exception is not caught. -/
theorem processElement_text_err (env : Env) (path : String) (flags : Flags)
    (pageNum : Nat) (st : Build) (el : LayoutElement)
    (f : String → Nat → BBox → Except String String) (m : String)
    (hf : flags.text = true) (hm : el.type_ ∈ textTypes)
    (hocr : env.ocr = some f) (hres : f path pageNum el.bbox = .error m) :
    processElement env path flags pageNum st el = .error m := by
  unfold processElement textStep
  rw [if_pos ⟨hf, hm⟩, hocr]
  dsimp only
  rw [hres]

/-- Images frame of one page's element loop with the image flag off:
nothing lands in the image collection and no image-typed element gets
content. -/
theorem processElems_images (env : Env) (path : String) (flags : Flags)
    (pageNum : Nat) (himg : flags.images = false) :
    ∀ (els : List LayoutElement) (st st2 : Build) (es : List Element),
      processElems env path flags pageNum st els = .ok (st2, es) →
      st2.images = st.images ∧
      ∀ e ∈ es, e.type_ ∈ imageTypes → e.content = none := by
  intro els
  induction els with
  | nil =>
      intro st st2 es h
      simp only [processElems, Except.ok.injEq, Prod.mk.injEq] at h
      refine ⟨by rw [← h.1], ?_⟩
      rw [← h.2]
      intro e he
      exact absurd he (by simp)
  | cons el rest ih =>
      intro st st2 es h
      rw [processElems] at h
      split at h
      · exact absurd h (by simp)
      · rename_i st1 c hpe
        split at h
        · exact absurd h (by simp)
        · rename_i stx esx hrec
          simp only [Except.ok.injEq, Prod.mk.injEq] at h
          obtain ⟨h1, h2⟩ := h
          obtain ⟨ihf, ihc⟩ := ih _ _ _ hrec
          refine ⟨?_, ?_⟩
          · rw [← h1, ihf,
              processElement_images_frame env path flags pageNum st el st1 c
                himg hpe]
          · rw [← h2]
            intro e he ht
            rcases List.mem_cons.mp he with he | he
            · subst he
              exact processElement_image_content env path flags pageNum st el
                st1 c himg ht hpe
            · exact ihc e he ht

/-- Images frame of the page loop with the image flag off. -/
theorem processPages_images (env : Env) (path : String) (flags : Flags)
    (himg : flags.images = false) :
    ∀ (pls : List PageLayout) (st st2 : Build) (n : Nat) (ps : List Page),
      processPages env path flags st n pls = .ok (st2, ps) →
      st2.images = st.images ∧
      ∀ p ∈ ps, ∀ e ∈ p.elements, e.type_ ∈ imageTypes →
        e.content = none := by
  intro pls
  induction pls with
  | nil =>
      intro st st2 n ps h
      simp only [processPages, Except.ok.injEq, Prod.mk.injEq] at h
      refine ⟨by rw [← h.1], ?_⟩
      rw [← h.2]
      intro p hp
      exact absurd hp (by simp)
  | cons pl rest ih =>
      intro st st2 n ps h
      rw [processPages] at h
      split at h
      · exact absurd h (by simp)
      · rename_i st1 es hpe
        split at h
        · exact absurd h (by simp)
        · rename_i stx psx hrec
          simp only [Except.ok.injEq, Prod.mk.injEq] at h
          obtain ⟨h1, h2⟩ := h
          obtain ⟨ihf, ihc⟩ := ih _ _ _ _ hrec
          obtain ⟨hef, hec⟩ := processElems_images env path flags n himg
            pl.elements st st1 es hpe
          refine ⟨by rw [← h1, ihf, hef], ?_⟩
          rw [← h2]
          intro p hp e he ht
          rcases List.mem_cons.mp hp with hp | hp
          · subst hp
            exact hec e he ht
          · exact ihc p hp e he ht

/-- The id/bbox shape of `extract_table`, identical on both branches. -/
theorem extract_table_shape (env : Env) (path : String) (pageNum : Nat)
    (bb : BBox) :
    (extract_table env path pageNum bb).id = entityId ("table") pageNum bb ∧
    (extract_table env path pageNum bb).bbox = bb := by
  unfold extract_table
  split <;> exact ⟨rfl, rfl⟩

/-- The id/bbox shape of `extract_formula`, identical on both branches. -/
theorem extract_formula_shape (env : Env) (path : String) (pageNum : Nat)
    (bb : BBox) :
    (extract_formula env path pageNum bb).id =
      entityId ("formula") pageNum bb ∧
    (extract_formula env path pageNum bb).bbox = bb := by
  unfold extract_formula
  split <;> exact ⟨rfl, rfl⟩

/-- The id/bbox shape of `extract_image`, identical on both branches. -/
theorem extract_image_shape (env : Env) (path : String) (pageNum : Nat)
    (bb : BBox) :
    (extract_image env path pageNum bb).id = entityId ("image") pageNum bb ∧
    (extract_image env path pageNum bb).bbox = bb := by
  unfold extract_image
  split <;> exact ⟨rfl, rfl⟩

/-- The table block preserves the id-scheme invariant. -/
theorem tableStep_ids (env : Env) (path : String) (flags : Flags)
    (pageNum : Nat) (el : LayoutElement) (p : Build × Option String)
    (h : collectionsOk p.1) :
    collectionsOk (tableStep env path flags pageNum el p).1 := by
  unfold tableStep
  split
  · refine ⟨?_, h.2.1, h.2.2⟩
    intro t ht
    rcases List.mem_append.mp ht with ht | ht
    · exact h.1 t ht
    · rw [List.mem_singleton] at ht
      subst ht
      refine ⟨pageNum, rfl, ?_⟩
      show (extract_table env path pageNum el.bbox).id =
        entityId ("table") pageNum (extract_table env path pageNum el.bbox).bbox
      rw [(extract_table_shape env path pageNum el.bbox).1,
          (extract_table_shape env path pageNum el.bbox).2]
  · exact h

/-- The formula block preserves the id-scheme invariant. -/
theorem formulaStep_ids (env : Env) (path : String) (flags : Flags)
    (pageNum : Nat) (el : LayoutElement) (p : Build × Option String)
    (h : collectionsOk p.1) :
    collectionsOk (formulaStep env path flags pageNum el p).1 := by
  unfold formulaStep
  split
  · refine ⟨h.1, ?_, h.2.2⟩
    intro f hf
    rcases List.mem_append.mp hf with hf | hf
    · exact h.2.1 f hf
    · rw [List.mem_singleton] at hf
      subst hf
      refine ⟨pageNum, rfl, ?_⟩
      show (extract_formula env path pageNum el.bbox).id =
        entityId ("formula") pageNum
          (extract_formula env path pageNum el.bbox).bbox
      rw [(extract_formula_shape env path pageNum el.bbox).1,
          (extract_formula_shape env path pageNum el.bbox).2]
  · exact h

/-- The image block preserves the id-scheme invariant. -/
theorem imageStep_ids (env : Env) (path : String) (flags : Flags)
    (pageNum : Nat) (el : LayoutElement) (p : Build × Option String)
    (h : collectionsOk p.1) :
    collectionsOk (imageStep env path flags pageNum el p).1 := by
  unfold imageStep
  split
  · refine ⟨h.1, h.2.1, ?_⟩
    intro i hi
    rcases List.mem_append.mp hi with hi | hi
    · exact h.2.2 i hi
    · rw [List.mem_singleton] at hi
      subst hi
      refine ⟨pageNum, rfl, ?_⟩
      show (extract_image env path pageNum el.bbox).id =
        entityId ("image") pageNum (extract_image env path pageNum el.bbox).bbox
      rw [(extract_image_shape env path pageNum el.bbox).1,
          (extract_image_shape env path pageNum el.bbox).2]
  · exact h

/-- A successful text block preserves the id-scheme invariant. -/
theorem textStep_ids (env : Env) (path : String) (flags : Flags)
    (pageNum : Nat) (st : Build) (el : LayoutElement) (st1 : Build)
    (c : Option String)
    (h : textStep env path flags pageNum st el = .ok (st1, c))
    (hok : collectionsOk st) : collectionsOk st1 := by
  obtain ⟨hi, ht, hf⟩ := textStep_ok_frame env path flags pageNum st el st1 c h
  exact ⟨by rw [ht]; exact hok.1, by rw [hf]; exact hok.2.1,
    by rw [hi]; exact hok.2.2⟩

/-- A successful element step preserves the id-scheme invariant. -/
theorem processElement_ids (env : Env) (path : String) (flags : Flags)
    (pageNum : Nat) (st : Build) (el : LayoutElement) (st1 : Build)
    (c : Option String)
    (h : processElement env path flags pageNum st el = .ok (st1, c))
    (hok : collectionsOk st) : collectionsOk st1 := by
  unfold processElement at h
  split at h
  · exact absurd h (by simp)
  · rename_i p1 heq
    simp only [Except.ok.injEq] at h
    have h1 : st1 =
        (imageStep env path flags pageNum el
          (formulaStep env path flags pageNum el
            (tableStep env path flags pageNum el p1))).1 :=
      (congrArg Prod.fst h).symm
    rw [h1]
    exact imageStep_ids env path flags pageNum el _
      (formulaStep_ids env path flags pageNum el _
        (tableStep_ids env path flags pageNum el p1
          (textStep_ids env path flags pageNum st el p1.1 p1.2 heq hok)))

/-- The element loop preserves the id-scheme invariant. -/
theorem processElems_ids (env : Env) (path : String) (flags : Flags)
    (pageNum : Nat) :
    ∀ (els : List LayoutElement) (st st2 : Build) (es : List Element),
      processElems env path flags pageNum st els = .ok (st2, es) →
      collectionsOk st → collectionsOk st2 := by
  intro els
  induction els with
  | nil =>
      intro st st2 es h hok
      simp only [processElems, Except.ok.injEq, Prod.mk.injEq] at h
      rw [← h.1]
      exact hok
  | cons el rest ih =>
      intro st st2 es h hok
      rw [processElems] at h
      split at h
      · exact absurd h (by simp)
      · rename_i st1 c hpe
        split at h
        · exact absurd h (by simp)
        · rename_i stx esx hrec
          simp only [Except.ok.injEq, Prod.mk.injEq] at h
          rw [← h.1]
          exact ih _ _ _ hrec
            (processElement_ids env path flags pageNum st el st1 c hpe hok)

/-- The page loop preserves the id-scheme invariant. -/
theorem processPages_ids (env : Env) (path : String) (flags : Flags) :
    ∀ (pls : List PageLayout) (st st2 : Build) (n : Nat) (ps : List Page),
      processPages env path flags st n pls = .ok (st2, ps) →
      collectionsOk st → collectionsOk st2 := by
  intro pls
  induction pls with
  | nil =>
      intro st st2 n ps h hok
      simp only [processPages, Except.ok.injEq, Prod.mk.injEq] at h
      rw [← h.1]
      exact hok
  | cons pl rest ih =>
      intro st st2 n ps h hok
      rw [processPages] at h
      split at h
      · exact absurd h (by simp)
      · rename_i st1 es hpe
        split at h
        · exact absurd h (by simp)
        · rename_i stx psx hrec
          simp only [Except.ok.injEq, Prod.mk.injEq] at h
          rw [← h.1]
          exact ih _ _ _ _ hrec
            (processElems_ids env path flags n pl.elements st st1 es hpe hok)

end ApiServer

namespace LocalServer

/-- Every table the fallback table loop emits carries an index-based id
and a 1-based page number. -/
theorem tablesFrom_ids :
    ∀ (ts : List FitzTable) (p i : Nat), ∀ t ∈ (tablesFrom p i ts).1,
      ∃ j : Nat, t.id = "table_" ++ toString p ++ "_" ++ toString j ∧
        t.pageNumber = p + 1 := by
  intro ts
  induction ts with
  | nil =>
      intro p i t ht
      exact absurd ht (by simp [tablesFrom])
  | cons hd rest ih =>
      intro p i t ht
      rw [tablesFrom] at ht
      split at ht
      · exact ih p (i + 1) t ht
      · rename_i td heq
        rcases List.mem_cons.mp ht with h | h
        · subst h
          exact ⟨i, rfl, rfl⟩
        · exact ih p (i + 1) t h

/-- Every image the fallback image loop emits carries an index-based id
and a 1-based page number. -/
theorem imagesFrom_ids :
    ∀ (ims : List FitzImage) (p i : Nat), ∀ im ∈ (imagesFrom p i ims).1,
      ∃ j : Nat, im.id = "img_" ++ toString p ++ "_" ++ toString j ∧
        im.pageNumber = p + 1 := by
  intro ims
  induction ims with
  | nil =>
      intro p i im him
      exact absurd him (by simp [imagesFrom])
  | cons hd rest ih =>
      intro p i im him
      rw [imagesFrom] at him
      split at him
      · rcases List.mem_cons.mp him with h | h
        · subst h
          exact ⟨i, rfl, rfl⟩
        · exact ih p (i + 1) im h
      · exact ih p (i + 1) im him

/-- Every table and image the fallback page loop collects carries an
index-based id and a 1-based page number. -/
theorem basicPages_ids :
    ∀ (ps : List (Except String FitzPage)) (n : Nat) (txt : String)
      (imgs : List BImage) (tbls : List BTable)
      (pgs : List ApiServer.Page),
      basicPages n ps = .ok (txt, imgs, tbls, pgs) →
      (∀ t ∈ tbls, ∃ p j : Nat,
        t.id = "table_" ++ toString p ++ "_" ++ toString j ∧
        t.pageNumber = p + 1) ∧
      (∀ im ∈ imgs, ∃ p j : Nat,
        im.id = "img_" ++ toString p ++ "_" ++ toString j ∧
        im.pageNumber = p + 1) := by
  intro ps
  induction ps with
  | nil =>
      intro n txt imgs tbls pgs h
      simp only [basicPages, Except.ok.injEq, Prod.mk.injEq] at h
      obtain ⟨-, h2, h3, -⟩ := h
      constructor
      · intro t ht
        rw [← h3] at ht
        exact absurd ht (by simp)
      · intro im him
        rw [← h2] at him
        exact absurd him (by simp)
  | cons hd rest ih =>
      intro n txt imgs tbls pgs h
      cases hd with
      | error e0 =>
          rw [basicPages] at h
          exact absurd h (by simp)
      | ok p =>
        rw [basicPages] at h
        split at h
        · exact absurd h (by simp)
        · rename_i txt2 imgs2 tbls2 pgs2 hrec
          simp only [Except.ok.injEq, Prod.mk.injEq] at h
          obtain ⟨-, h2, h3, -⟩ := h
          obtain ⟨iht, ihi⟩ := ih (n + 1) _ _ _ _ hrec
          constructor
          · intro t ht
            rw [← h3] at ht
            rcases List.mem_append.mp ht with ht | ht
            · obtain ⟨j, hj⟩ := tablesFrom_ids p.tables n 0 t ht
              exact ⟨n, j, hj⟩
            · exact iht t ht
          · intro im him
            rw [← h2] at him
            rcases List.mem_append.mp him with him | him
            · obtain ⟨j, hj⟩ := imagesFrom_ids p.images n 0 im him
              exact ⟨n, j, hj⟩
            · exact ihi im him

/-- A failing page makes the whole fallback page loop fail. -/
theorem basicPages_err :
    ∀ (ps : List (Except String FitzPage)) (n : Nat) (e : String),
      Except.error e ∈ ps → ∃ e2, basicPages n ps = .error e2 := by
  intro ps
  induction ps with
  | nil =>
      intro n e h
      exact absurd h (by simp)
  | cons hd rest ih =>
      intro n e h
      cases hd with
      | error e0 => exact ⟨e0, by rw [basicPages]⟩
      | ok p =>
          have h2 : Except.error e ∈ rest := by
            rcases List.mem_cons.mp h with h | h
            · exact absurd h (by simp)
            · exact h
          obtain ⟨e2, hrec⟩ := ih (n + 1) e h2
          exact ⟨e2, by rw [basicPages, hrec]⟩

end LocalServer

namespace ApiServer

/-- Inversion of a successful `process_pdf` run: the layout succeeded,
the page loop succeeded, the result fields are the accumulated values,
and each metadata count is the length of its collection. -/
theorem process_pdf_ok (env : Env) (path : String) (flags : Flags)
    (r : Doc) (h : process_pdf env path flags = .ok r) :
    ∃ lr st, env.layout path = .ok lr ∧
      processPages env path flags emptyBuild 1 lr.pages = .ok (st, r.pages) ∧
      r.text = st.text ∧ r.tables = st.tables ∧ r.images = st.images ∧
      r.formulas = st.formulas ∧
      r.metadata.totalPages = r.pages.length ∧
      r.metadata.totalTables = r.tables.length ∧
      r.metadata.totalImages = r.images.length ∧
      r.metadata.totalFormulas = r.formulas.length ∧
      r.metadata.textLength = r.text.length := by
  unfold process_pdf at h
  split at h
  · exact absurd h (by simp)
  · rename_i lr hl
    split at h
    · exact absurd h (by simp)
    · rename_i st ps hp
      simp only [Except.ok.injEq] at h
      subst h
      exact ⟨lr, st, hl, hp, rfl, rfl, rfl, rfl, rfl, rfl, rfl, rfl, rfl⟩

/-- The fresh accumulator satisfies the id-scheme invariant. -/
theorem emptyBuild_ok : collectionsOk emptyBuild := by
  refine ⟨?_, ?_, ?_⟩ <;> intro x hx <;> exact absurd hx (List.not_mem_nil x)

/-- On model success, the formula kind is decided by the bbox height. -/
theorem extract_formula_type_ok (env : Env) (path : String) (n : Nat)
    (bb : BBox) (r : FormulaModelResult)
    (h : env.formulaModel path n bb = .ok r) :
    (extract_formula env path n bb).type_ =
      if bb.y1 - bb.y0 > 50 then "block" else "inline" := by
  unfold extract_formula
  rw [h]

/-- On model failure, the formula kind is the placeholder `'unknown'`. -/
theorem extract_formula_type_err (env : Env) (path : String) (n : Nat)
    (bb : BBox) (e : String)
    (h : env.formulaModel path n bb = .error e) :
    (extract_formula env path n bb).type_ = "unknown" := by
  unfold extract_formula
  rw [h]

end ApiServer

namespace LocalServer

/-- Inversion of a successful fallback run: when the page loop succeeds,
the result carries the accumulated values and counts them. -/
theorem extract_basic_ok (doc : PdfDoc) (txt : String)
    (imgs : List BImage) (tbls : List BTable) (pgs : List ApiServer.Page)
    (h : basicPages 0 doc.pages = .ok (txt, imgs, tbls, pgs)) :
    extract_with_basic_tools (.ok doc) =
      { text := txt
        pages := pgs
        tables := tbls
        images := imgs
        formulas := []
        metadata :=
          { totalPages := some pgs.length
            totalTables := some tbls.length
            totalImages := some imgs.length
            totalFormulas := some 0
            textLength := some txt.length
            extractionMethod := some ("PyMuPDF-basic") } } := by
  unfold extract_with_basic_tools
  dsimp only
  rw [h]

/-- Any failure of the fallback page loop lands in the minimal,
fabricated result. -/
theorem extract_basic_fail (doc : PdfDoc) (e : String)
    (h : basicPages 0 doc.pages = .error e) :
    extract_with_basic_tools (.ok doc) = failResult e := by
  unfold extract_with_basic_tools
  dsimp only
  rw [h]

end LocalServer

/-- C1: for every document processed to completion, the metadata counts
equal the sizes of their collections — `totalPages` the number of pages,
`totalTables`/`totalImages`/`totalFormulas` the collection lengths, and
`textLength` the length of the accumulated text — in the model-based
server (`process_pdf`) and, with the counts wrapped in `some`, in the
fallback server (`extract_with_basic_tools`); the counts are computed
after assembly by counting the collections. -/
theorem c1_metadata_counts (env : ApiServer.Env) (path : String)
    (flags : ApiServer.Flags) (r : ApiServer.Doc)
    (doc : LocalServer.PdfDoc) (txt : String)
    (imgs : List LocalServer.BImage) (tbls : List LocalServer.BTable)
    (pgs : List ApiServer.Page)
    (hk : ApiServer.process_pdf env path flags = .ok r)
    (hb : LocalServer.basicPages 0 doc.pages = .ok (txt, imgs, tbls, pgs)) :
    (r.metadata.totalPages = r.pages.length ∧
     r.metadata.totalTables = r.tables.length ∧
     r.metadata.totalImages = r.images.length ∧
     r.metadata.totalFormulas = r.formulas.length ∧
     r.metadata.textLength = r.text.length) ∧
    ((LocalServer.extract_with_basic_tools (.ok doc)).metadata.totalPages =
       some (LocalServer.extract_with_basic_tools (.ok doc)).pages.length ∧
     (LocalServer.extract_with_basic_tools (.ok doc)).metadata.totalTables =
       some (LocalServer.extract_with_basic_tools (.ok doc)).tables.length ∧
     (LocalServer.extract_with_basic_tools (.ok doc)).metadata.totalImages =
       some (LocalServer.extract_with_basic_tools (.ok doc)).images.length ∧
     (LocalServer.extract_with_basic_tools (.ok doc)).metadata.totalFormulas =
       some
         (LocalServer.extract_with_basic_tools (.ok doc)).formulas.length ∧
     (LocalServer.extract_with_basic_tools (.ok doc)).metadata.textLength =
       some (LocalServer.extract_with_basic_tools (.ok doc)).text.length) := by
  constructor
  · obtain ⟨lr, st, -, -, -, -, -, -, h1, h2, h3, h4, h5⟩ :=
      ApiServer.process_pdf_ok env path flags r hk
    exact ⟨h1, h2, h3, h4, h5⟩
  · rw [LocalServer.extract_basic_ok doc txt imgs tbls pgs hb]
    exact ⟨rfl, rfl, rfl, rfl, rfl⟩

/-- C1 witness: the two-page scenario for the model-based server and the
one-table document for the fallback server. -/
theorem c1_witness :
    (scenarioDoc.metadata.totalPages = scenarioDoc.pages.length ∧
     scenarioDoc.metadata.totalTables = scenarioDoc.tables.length ∧
     scenarioDoc.metadata.totalImages = scenarioDoc.images.length ∧
     scenarioDoc.metadata.totalFormulas = scenarioDoc.formulas.length ∧
     scenarioDoc.metadata.textLength = scenarioDoc.text.length) ∧
    ((LocalServer.extract_with_basic_tools (.ok docTbl)).metadata.totalPages =
       some (LocalServer.extract_with_basic_tools (.ok docTbl)).pages.length ∧
     (LocalServer.extract_with_basic_tools
        (.ok docTbl)).metadata.totalTables =
       some (LocalServer.extract_with_basic_tools (.ok docTbl)).tables.length ∧
     (LocalServer.extract_with_basic_tools
        (.ok docTbl)).metadata.totalImages =
       some (LocalServer.extract_with_basic_tools (.ok docTbl)).images.length ∧
     (LocalServer.extract_with_basic_tools
        (.ok docTbl)).metadata.totalFormulas =
       some
         (LocalServer.extract_with_basic_tools (.ok docTbl)).formulas.length ∧
     (LocalServer.extract_with_basic_tools (.ok docTbl)).metadata.textLength =
       some (LocalServer.extract_with_basic_tools (.ok docTbl)).text.length) :=
  c1_metadata_counts envScenario scenarioPath allFlags scenarioDoc docTbl
    basicTblTuple.1 basicTblTuple.2.1 basicTblTuple.2.2.1 basicTblTuple.2.2.2
    rfl rfl

/-- C2 counterexample: on an unreadable input the fallback server does
not surface an error; it returns a fabricated result with placeholder
text, zero pages and empty collections, and the route hands it out as a
success. -/
theorem c2_counterexample :
    (LocalServer.extract_with_basic_tools
      (.error ("cannot open file"))).text = "Extraction failed" ∧
    (LocalServer.extract_with_basic_tools
      (.error ("cannot open file"))).pages = [] ∧
    (LocalServer.extract_with_basic_tools
      (.error ("cannot open file"))).tables = [] ∧
    (LocalServer.extract_with_basic_tools
      (.error ("cannot open file"))).images = [] ∧
    (LocalServer.extract_with_basic_tools
      (.error ("cannot open file"))).metadata.totalPages = none ∧
    LocalServer.extract_document false allFlags
        (.error ("cannot open file")) =
      LocalServer.extract_with_basic_tools (.error ("cannot open file")) :=
  ⟨rfl, rfl, rfl, rfl, rfl, rfl⟩

/-- C2 amended: in the model-based server a corrupt input propagates the
layout failure as an error to the caller; the local fallback server
instead catches it and returns the fabricated minimal result — text
`'Extraction failed'`, no pages, no collections, and a metadata dict
holding only the error message. -/
theorem c2_amended (env : ApiServer.Env) (path : String)
    (flags : ApiServer.Flags) (e d : String)
    (h : env.layout path = .error e) :
    ApiServer.process_pdf env path flags = .error e ∧
    LocalServer.extract_with_basic_tools (.error d) =
      LocalServer.failResult d ∧
    (LocalServer.failResult d).text = "Extraction failed" ∧
    (LocalServer.failResult d).pages = [] ∧
    (LocalServer.failResult d).metadata.error = some d ∧
    (LocalServer.failResult d).metadata.totalPages = none := by
  refine ⟨?_, rfl, rfl, rfl, rfl, rfl⟩
  unfold ApiServer.process_pdf
  rw [h]

/-- C2 witness: the corrupt-input environment. -/
theorem c2_witness :
    envCorrupt.layout scenarioPath = .error ("cannot open file") ∧
    ApiServer.process_pdf envCorrupt scenarioPath allFlags =
      .error ("cannot open file") ∧
    (LocalServer.failResult ("cannot open file")).text =
      "Extraction failed" :=
  ⟨rfl,
   (c2_amended envCorrupt scenarioPath allFlags
     ("cannot open file") ("cannot open file") rfl).1,
   (c2_amended envCorrupt scenarioPath allFlags
     ("cannot open file") ("cannot open file") rfl).2.2.1⟩

/-- C3 counterexample: text region extraction is not total — with a
crashing OCR, processing a document whose only element is a text element
aborts the whole document instead of yielding a placeholder. -/
theorem c3_counterexample :
    ApiServer.process_pdf envOcrFail scenarioPath allFlags =
      .error ("ocr crash") := rfl

/-- C3 amended: the table, formula and image region extractors are total
— on an internal failure each returns a zero-confidence placeholder with
empty content rather than raising — but the text extraction path is not
guarded: an OCR failure on a text-typed element aborts the element loop
and with it the whole document. -/
theorem c3_amended (env : ApiServer.Env) (path : String) (n : Nat)
    (bb : BBox) (e : String) :
    (env.tableModel path n bb = .error e →
      (ApiServer.extract_table env path n bb).confidence = 0 ∧
      (ApiServer.extract_table env path n bb).data = [] ∧
      (ApiServer.extract_table env path n bb).headers = [] ∧
      (ApiServer.extract_table env path n bb).html = "" ∧
      (ApiServer.extract_table env path n bb).markdown = "") ∧
    (env.formulaModel path n bb = .error e →
      (ApiServer.extract_formula env path n bb).confidence = 0 ∧
      (ApiServer.extract_formula env path n bb).latex = "") ∧
    (env.imageRender path n bb = .error e →
      (ApiServer.extract_image env path n bb).confidence = 0 ∧
      (ApiServer.extract_image env path n bb).base64 = "") ∧
    (∀ (flags : ApiServer.Flags) (st : ApiServer.Build)
       (el : ApiServer.LayoutElement)
       (f : String → Nat → BBox → Except String String) (m : String),
      flags.text = true → el.type_ ∈ ApiServer.textTypes →
      env.ocr = some f → f path n el.bbox = .error m →
      ApiServer.processElement env path flags n st el = .error m) := by
  refine ⟨?_, ?_, ?_, ?_⟩
  · intro h
    unfold ApiServer.extract_table
    rw [h]
    exact ⟨rfl, rfl, rfl, rfl, rfl⟩
  · intro h
    unfold ApiServer.extract_formula
    rw [h]
    exact ⟨rfl, rfl⟩
  · intro h
    unfold ApiServer.extract_image
    rw [h]
    exact ⟨rfl, rfl⟩
  · intro flags st el f m hf hm hocr hres
    exact ApiServer.processElement_text_err env path flags n st el f m
      hf hm hocr hres

/-- C3 witness: all oracles down — the three guarded extractors yield
placeholders, while the text path aborts. -/
theorem c3_witness :
    (ApiServer.extract_table envAllFail scenarioPath 1 bbTall).confidence =
      0 ∧
    (ApiServer.extract_formula envAllFail scenarioPath 1 bbTall).latex = "" ∧
    (ApiServer.extract_image envAllFail scenarioPath 1 bbTall).base64 = "" ∧
    ApiServer.processElement envAllFail scenarioPath allFlags 1
        ApiServer.emptyBuild elHello = .error ("ocr crash") :=
  ⟨((c3_amended envAllFail scenarioPath 1 bbTall
      ("table model down")).1 rfl).1,
   ((c3_amended envAllFail scenarioPath 1 bbTall
      ("formula model down")).2.1 rfl).2,
   ((c3_amended envAllFail scenarioPath 1 bbTall
      ("image render down")).2.2.1 rfl).2,
   (c3_amended envAllFail scenarioPath 1 bbTall ("x")).2.2.2 allFlags
     ApiServer.emptyBuild elHello ocrCrash ("ocr crash") rfl (by decide)
     rfl rfl⟩

/-- C4 counterexample: a two-page input whose second page fails is not
emitted with that page empty — the fallback server collapses the whole
document to the fabricated zero-page result, and `totalPages` does not
match the physical page count of 2. -/
theorem c4_counterexample :
    docPageFail.pages.length = 2 ∧
    (LocalServer.extract_with_basic_tools (.ok docPageFail)).pages.length =
      0 ∧
    (LocalServer.extract_with_basic_tools
      (.ok docPageFail)).metadata.totalPages = none ∧
    (LocalServer.extract_with_basic_tools (.ok docPageFail)).text =
      "Extraction failed" :=
  ⟨rfl, rfl, rfl, rfl⟩

/-- C4 amended: a failing page aborts the whole document — the
model-based server propagates the page-loop error out of `process_pdf`,
and the fallback server returns the fabricated minimal result with zero
pages — instead of emitting the page with an empty element list. -/
theorem c4_amended (env : ApiServer.Env) (path : String)
    (flags : ApiServer.Flags) (lr : ApiServer.LayoutResult) (m : String)
    (doc : LocalServer.PdfDoc) (e : String)
    (hl : env.layout path = .ok lr)
    (hp : ApiServer.processPages env path flags ApiServer.emptyBuild 1
      lr.pages = .error m)
    (hm : Except.error e ∈ doc.pages) :
    ApiServer.process_pdf env path flags = .error m ∧
    (LocalServer.extract_with_basic_tools (.ok doc)).pages = [] ∧
    (LocalServer.extract_with_basic_tools (.ok doc)).text =
      "Extraction failed" ∧
    (LocalServer.extract_with_basic_tools (.ok doc)).metadata.totalPages =
      none := by
  refine ⟨?_, ?_⟩
  · unfold ApiServer.process_pdf
    rw [hl]
    dsimp only
    rw [hp]
  · obtain ⟨e2, h2⟩ := LocalServer.basicPages_err doc.pages 0 e hm
    rw [LocalServer.extract_basic_fail doc e2 h2]
    exact ⟨rfl, rfl, rfl⟩

/-- C4 witness: the crashing-OCR one-page layout for the model-based
server, and the two-page document with a failing second page for the
fallback server. -/
theorem c4_witness :
    ApiServer.process_pdf envOcrFail scenarioPath allFlags =
      .error ("ocr crash") ∧
    (LocalServer.extract_with_basic_tools (.ok docPageFail)).pages = [] ∧
    (LocalServer.extract_with_basic_tools (.ok docPageFail)).text =
      "Extraction failed" ∧
    (LocalServer.extract_with_basic_tools
      (.ok docPageFail)).metadata.totalPages = none :=
  c4_amended envOcrFail scenarioPath allFlags
    { pages := [{ width := 612, height := 792, elements := [elHello] }] }
    ("ocr crash") docPageFail ("page 2 crashed") rfl rfl
    (List.mem_cons_of_mem _ (List.mem_cons_self _ _))

/-- C5 counterexample: the fallback server ignores the extraction flags
— with `extract_images` disabled, a document with one embedded image
still yields a non-empty `images` collection. -/
theorem c5_counterexample :
    noImagesFlags.images = false ∧
    (LocalServer.extract_document false noImagesFlags
      (.ok docOneImage)).images.length = 1 :=
  ⟨rfl, rfl⟩

/-- C5 amended: under the model-based server, disabling `extractImages`
yields an empty `images` collection and leaves every image-typed
element's content unset; the fallback server ignores the flags entirely,
so its output does not depend on them at all (and in particular it keeps
extracting images with the flag off). -/
theorem c5_amended (env : ApiServer.Env) (path : String)
    (flags : ApiServer.Flags) (r : ApiServer.Doc)
    (himg : flags.images = false)
    (h : ApiServer.process_pdf env path flags = .ok r) :
    r.images = [] ∧
    (∀ p ∈ r.pages, ∀ e ∈ p.elements,
      e.type_ ∈ ApiServer.imageTypes → e.content = none) ∧
    (∀ (ml : Bool) (f1 f2 : ApiServer.Flags)
       (d : Except String LocalServer.PdfDoc),
      LocalServer.extract_document ml f1 d =
        LocalServer.extract_document ml f2 d) := by
  obtain ⟨lr, st, -, hp, -, -, him, -, -⟩ :=
    ApiServer.process_pdf_ok env path flags r h
  obtain ⟨hf, hc⟩ := ApiServer.processPages_images env path flags himg
    lr.pages ApiServer.emptyBuild st 1 r.pages hp
  refine ⟨?_, hc, ?_⟩
  · rw [him, hf]
    rfl
  · intro ml f1 f2 d
    rfl

/-- C5 witness: a one-page layout with a detected image element,
processed with images disabled. -/
theorem c5_witness :
    noImagesFlags.images = false ∧
    ApiServer.process_pdf envImg scenarioPath noImagesFlags =
      .ok noImagesDoc ∧
    noImagesDoc.images = [] ∧
    (∀ p ∈ noImagesDoc.pages, ∀ e ∈ p.elements,
      e.type_ ∈ ApiServer.imageTypes → e.content = none) :=
  ⟨rfl, rfl,
   (c5_amended envImg scenarioPath noImagesFlags noImagesDoc rfl rfl).1,
   (c5_amended envImg scenarioPath noImagesFlags noImagesDoc rfl rfl).2.1⟩

/-- C6 counterexample: the fallback server does not use the
type-page-coordinates id scheme — its table ids are built from the
0-based page index and a running enumeration index (here `table_0_0`
instead of the claimed `table_1_10_20` for a table at (10.5, 20.5) on
page 1); moreover the model-based server truncates coordinates toward
zero, not by floor, so at x0 = -1.5 it emits `-1` where the claimed
floor would give `-2`. -/
theorem c6_counterexample :
    ((LocalServer.extract_with_basic_tools (.ok docTbl)).tables.map
      (fun t => t.id)) = ["table_0_0"] ∧
    "table_0_0" ≠ "table_1_10_20" ∧
    (ApiServer.extract_table envScenario scenarioPath 1 bbNeg).id =
      "table_1_-1_5" ∧
    Int.floor bbNeg.x0 = -2 ∧
    intTrunc bbNeg.x0 = -1 ∧
    "table_1_-1_5" ≠ "table_1_-2_5" := by
  have h1 : (bbNeg.x0).num = -3 := by norm_num [bbNeg]
  have h2 : (bbNeg.x0).den = 2 := by norm_num [bbNeg]
  have hx : intTrunc bbNeg.x0 = -1 := by
    unfold intTrunc
    rw [h1, h2]
    decide
  have hy : intTrunc bbNeg.y0 = 5 := by
    have h3 : (bbNeg.y0).num = 5 := by norm_num [bbNeg]
    have h4 : (bbNeg.y0).den = 1 := by norm_num [bbNeg]
    unfold intTrunc
    rw [h3, h4]
    decide
  refine ⟨rfl, by decide, ?_, ?_, hx, by decide⟩
  · rw [(ApiServer.extract_table_shape envScenario scenarioPath 1 bbNeg).1]
    unfold ApiServer.entityId
    rw [hx, hy]
    decide
  · norm_num [bbNeg]

/-- C6 amended: in the model-based server every table, formula and image
entity of a completed run is stamped with its 1-based page number and an
id `"{type}_{page}_{trunc(x0)}_{trunc(y0)}"`, coordinates truncated
toward zero; in the fallback server table ids are `"table_{p}_{i}"` and
image ids `"img_{p}_{i}"` with `p` the 0-based page index and `i` the
per-page enumeration index.  Both schemes are deterministic in the
detector output. -/
theorem c6_amended (env : ApiServer.Env) (path : String)
    (flags : ApiServer.Flags) (r : ApiServer.Doc)
    (h : ApiServer.process_pdf env path flags = .ok r) :
    ((∀ t ∈ r.tables, ApiServer.tableOk t) ∧
     (∀ f ∈ r.formulas, ApiServer.formulaOk f) ∧
     (∀ i ∈ r.images, ApiServer.imageOk i)) ∧
    (∀ (d : Except String LocalServer.PdfDoc),
      (∀ t ∈ (LocalServer.extract_with_basic_tools d).tables,
        ∃ p j : Nat, t.id = "table_" ++ toString p ++ "_" ++ toString j ∧
          t.pageNumber = p + 1) ∧
      (∀ im ∈ (LocalServer.extract_with_basic_tools d).images,
        ∃ p j : Nat, im.id = "img_" ++ toString p ++ "_" ++ toString j ∧
          im.pageNumber = p + 1)) := by
  constructor
  · obtain ⟨lr, st, -, hp, -, htab, him, hform, -⟩ :=
      ApiServer.process_pdf_ok env path flags r h
    have hok : ApiServer.collectionsOk st :=
      ApiServer.processPages_ids env path flags lr.pages
        ApiServer.emptyBuild st 1 r.pages hp ApiServer.emptyBuild_ok
    rw [htab, hform, him]
    exact ⟨hok.1, hok.2.1, hok.2.2⟩
  · intro d
    cases d with
    | error e =>
        constructor <;> intro x hx <;>
          exact absurd hx (List.not_mem_nil x)
    | ok doc =>
        cases hb : LocalServer.basicPages 0 doc.pages with
        | error e =>
            rw [LocalServer.extract_basic_fail doc e hb]
            constructor <;> intro x hx <;>
              exact absurd hx (List.not_mem_nil x)
        | ok t4 =>
            obtain ⟨txt, imgs, tbls, pgs⟩ := t4
            rw [LocalServer.extract_basic_ok doc txt imgs tbls pgs hb]
            exact LocalServer.basicPages_ids doc.pages 0 txt imgs tbls
              pgs hb

/-- C6 witness: the two-page scenario run. -/
theorem c6_witness :
    ApiServer.process_pdf envScenario scenarioPath allFlags =
      .ok scenarioDoc ∧
    (∀ t ∈ scenarioDoc.tables, ApiServer.tableOk t) ∧
    (∀ t ∈ (LocalServer.extract_with_basic_tools (.ok docTbl)).tables,
      ∃ p j : Nat, t.id = "table_" ++ toString p ++ "_" ++ toString j ∧
        t.pageNumber = p + 1) :=
  ⟨rfl,
   (c6_amended envScenario scenarioPath allFlags scenarioDoc rfl).1.1,
   ((c6_amended envScenario scenarioPath allFlags scenarioDoc rfl).2
     (.ok docTbl)).1⟩

/-- C7 counterexample: a formula entity produced by a run whose formula
model fails carries kind `'unknown'`, which is outside {block, inline}. -/
theorem c7_counterexample :
    ((ApiServer.process_pdf envFormulaFail scenarioPath
        allFlags).toOption.map
      (fun d => d.formulas.map (fun f => f.type_))) = some (["unknown"]) ∧
    "unknown" ∉ (["block", "inline"] : List String) :=
  ⟨rfl, by decide⟩

/-- C7 amended: every formula entity's kind lies in
{block, inline, unknown}; when the formula model succeeds the kind is
`block` iff the bbox height `y1 - y0` exceeds 50 units and `inline`
otherwise, and when the model fails the placeholder kind is
`'unknown'`. -/
theorem c7_amended (env : ApiServer.Env) (path : String) (n : Nat)
    (bb : BBox) :
    (ApiServer.extract_formula env path n bb).type_ ∈
      (["block", "inline", "unknown"] : List String) ∧
    (∀ r, env.formulaModel path n bb = .ok r →
      (((ApiServer.extract_formula env path n bb).type_ = "block") ↔
        bb.y1 - bb.y0 > 50) ∧
      (((ApiServer.extract_formula env path n bb).type_ = "inline") ↔
        ¬ bb.y1 - bb.y0 > 50)) ∧
    (∀ e, env.formulaModel path n bb = .error e →
      (ApiServer.extract_formula env path n bb).type_ = "unknown") := by
  refine ⟨?_, ?_, ?_⟩
  · cases hfm : env.formulaModel path n bb with
    | ok r =>
        rw [ApiServer.extract_formula_type_ok env path n bb r hfm]
        split
        · decide
        · decide
    | error e =>
        rw [ApiServer.extract_formula_type_err env path n bb e hfm]
        decide
  · intro r hfm
    rw [ApiServer.extract_formula_type_ok env path n bb r hfm]
    by_cases hc : bb.y1 - bb.y0 > 50
    · rw [if_pos hc]
      constructor <;> simp [hc]
    · rw [if_neg hc]
      constructor <;> simp [hc]
  · intro e hfm
    exact ApiServer.extract_formula_type_err env path n bb e hfm

/-- C7 witness: a successful formula extraction on a tall bbox is a
block formula. -/
theorem c7_witness :
    envFormulaOk.formulaModel scenarioPath 1 bbTall = .ok scenFormulaRes ∧
    (((ApiServer.extract_formula envFormulaOk scenarioPath 1
        bbTall).type_ = "block") ↔ bbTall.y1 - bbTall.y0 > 50) ∧
    (ApiServer.extract_formula envFormulaOk scenarioPath 1 bbTall).type_ =
      "block" :=
  ⟨rfl,
   ((c7_amended envFormulaOk scenarioPath 1 bbTall).2.1 scenFormulaRes
      rfl).1,
   (((c7_amended envFormulaOk scenarioPath 1 bbTall).2.1 scenFormulaRes
      rfl).1).mpr (by norm_num [bbTall])⟩

/-- C8: a text-typed element processed with text extraction enabled (and
OCR available) appends the extracted text to the document text with a
trailing space and sets the element content to the raw text; the page
loop of the fallback server likewise appends each page's text with a
trailing newline; and on the concrete two-page scenario — Hello on
page 1, a table with one data row on page 2, all flags on — the final
document has text `"Hello "`, one table with data `[["1","2"]]`, and
metadata counts 1 table and 2 pages. -/
theorem c8_text_append :
    (∀ (env : ApiServer.Env) (path : String) (flags : ApiServer.Flags)
       (n : Nat) (st : ApiServer.Build) (el : ApiServer.LayoutElement)
       (f : String → Nat → BBox → Except String String) (t : String),
      flags.text = true → el.type_ ∈ ApiServer.textTypes →
      env.ocr = some f → f path n el.bbox = .ok t →
      ApiServer.processElement env path flags n st el =
        .ok ({ st with text := st.text ++ t ++ " " }, some t)) ∧
    (∀ (n : Nat) (p : LocalServer.FitzPage)
       (ps : List (Except String LocalServer.FitzPage))
       (r4 : String × List LocalServer.BImage × List LocalServer.BTable ×
         List ApiServer.Page),
      LocalServer.basicPages (n + 1) ps = .ok r4 →
      (LocalServer.basicPages n (Except.ok p :: ps)).map (fun x => x.1) =
        .ok (p.text ++ "\n" ++ r4.1)) ∧
    ApiServer.process_pdf envScenario scenarioPath allFlags =
      .ok scenarioDoc ∧
    scenarioDoc.text = "Hello " ∧
    scenarioDoc.tables.length = 1 ∧
    scenarioDoc.tables.map (fun t => t.data) = [[["1", "2"]]] ∧
    scenarioDoc.metadata.totalTables = 1 ∧
    scenarioDoc.metadata.totalPages = 2 := by
  refine ⟨?_, ?_, rfl, rfl, rfl, rfl, rfl, rfl⟩
  · intro env path flags n st el f t hf hm hocr hres
    exact ApiServer.processElement_text env path flags n st el f t
      hf hm hocr hres
  · intro n p ps r4 h
    obtain ⟨txt, imgs, tbls, pgs⟩ := r4
    rw [LocalServer.basicPages, h]
    rfl

/-- C8 witness: the Hello element on page 1 of the scenario. -/
theorem c8_witness :
    ApiServer.processElement envScenario scenarioPath allFlags 1
        ApiServer.emptyBuild elHello =
      .ok ({ ApiServer.emptyBuild with text := "Hello " },
        some ("Hello")) :=
  c8_text_append.1 envScenario scenarioPath allFlags 1
    ApiServer.emptyBuild elHello ocrHello ("Hello") rfl (by decide) rfl rfl

/-- C9: in the local extraction server the model-based strategy is
extensionally the fallback strategy — `extract_with_pdf_extract_kit`
returns exactly `extract_with_basic_tools` on every input, so whether
models were loaded has no effect on the extraction output. -/
theorem c9_kit_equals_basic (d : Except String LocalServer.PdfDoc) :
    LocalServer.extract_with_pdf_extract_kit d =
      LocalServer.extract_with_basic_tools d := rfl

/-- C10: in the model-based assembler every element the layout detector
reports appears in its page's element list with its type, bbox and
confidence (defaulting to 1.0 when the detector omits it); the recorded
pages, with content stripped, equal the detector output numbered from 1
and do not depend on the extraction flags. -/
theorem c10_elements_frame (env : ApiServer.Env) (path : String)
    (flags : ApiServer.Flags) (lr : ApiServer.LayoutResult)
    (r : ApiServer.Doc)
    (hl : env.layout path = .ok lr)
    (h : ApiServer.process_pdf env path flags = .ok r) :
    r.pages.map ApiServer.pageStrip =
      ApiServer.layoutPageStrip 1 lr.pages ∧
    (∀ (flags2 : ApiServer.Flags) (r2 : ApiServer.Doc),
      ApiServer.process_pdf env path flags2 = .ok r2 →
      r2.pages.map ApiServer.pageStrip = r.pages.map ApiServer.pageStrip) := by
  have main : ∀ (fl : ApiServer.Flags) (d : ApiServer.Doc),
      ApiServer.process_pdf env path fl = .ok d →
      d.pages.map ApiServer.pageStrip =
        ApiServer.layoutPageStrip 1 lr.pages := by
    intro fl d hd
    obtain ⟨lr2, st, hl2, hp, -⟩ := ApiServer.process_pdf_ok env path fl d hd
    rw [hl] at hl2
    have : lr = lr2 := by
      simpa using hl2
    subst this
    exact ApiServer.processPages_strip env path fl lr.pages
      ApiServer.emptyBuild st 1 d.pages hp
  refine ⟨main flags r h, ?_⟩
  intro flags2 r2 h2
  rw [main flags2 r2 h2, main flags r h]

/-- C10 witness: the two-page scenario, whose image element also
exercises the 1.0 confidence default. -/
theorem c10_witness :
    envScenario.layout scenarioPath = .ok scenLayout ∧
    ApiServer.process_pdf envScenario scenarioPath allFlags =
      .ok scenarioDoc ∧
    scenarioDoc.pages.map ApiServer.pageStrip =
      ApiServer.layoutPageStrip 1 scenLayout.pages :=
  ⟨rfl, rfl,
   (c10_elements_frame envScenario scenarioPath allFlags scenLayout
     scenarioDoc rfl rfl).1⟩
